import Mathlib

/-!
# Verification of the ocr-vision request-assembly and provider-dispatch pipeline

Shallow embedding of the OCR proxy endpoint (`POST /api/ocr`, multi-file
dispatcher revision) and of the client-side `compressImage` preprocessor,
together with theorems settling the specification's testable properties.

External collaborators are abstracted as parameters: the vision provider is a
function from the assembled call to a result (`Except` models a thrown
error), and JavaScript's `JSON.parse` is a function from a string to an
optional JSON value.  Machine strings are Lean `String`s, byte buffers are
`List Nat`, and browser image dimensions are rationals (JS numbers; all
arithmetic performed on them here divides integers by powers of two or stays
within exactly-representable ranges, so rational arithmetic is exact).
-/

namespace OcrVision

/-- Whether `needle` occurs as a contiguous run inside the character list. -/
def containsChars (needle : List Char) : List Char → Bool
  | [] => needle.isEmpty
  | c :: rest => needle.isPrefixOf (c :: rest) || containsChars needle rest

/-- `haystack.includes(needle)` of JavaScript strings, as used on the
Content-Type header. -/
def containsStr (haystack needle : String) : Bool :=
  containsChars needle.data haystack.data

/-- `s.startsWith(p)` of JavaScript strings, as used on declared MIME
types. -/
def startsWithStr (s p : String) : Bool :=
  p.data.isPrefixOf s.data

/-- A multipart form-data entry: `FormData.get` / `FormData.getAll` return
either a `File` or a string. -/
inductive FormEntry (F : Type) where
  | file (f : F)
  | str (s : String)
deriving DecidableEq

/-- An uploaded browser `File` as the server sees it: declared MIME type
(`f.type`), reported size in bytes (`f.size`), and the byte buffer returned
by `f.arrayBuffer()`. -/
structure ImgFile where
  type : String
  size : Nat
  data : List Nat
deriving DecidableEq

/-- The multipart form of one request: the singular `file` field, the
repeated `files[]` field in submission order, and the `targetLang` and
`format` text fields (`none` models an absent field). -/
structure Form where
  file : Option (FormEntry ImgFile)
  files : List (FormEntry ImgFile)
  targetLang : Option (FormEntry ImgFile)
  format : Option (FormEntry ImgFile)
deriving DecidableEq

/-- `String(form.get(name) || default)`: a missing field or an empty string
(falsy in JS) yields the default; a `File` value stringifies to
`"[object File]"`. -/
def jsStringOr (v : Option (FormEntry ImgFile)) (dflt : String) : String :=
  match v with
  | none => dflt
  | some (FormEntry.str s) => if s == "" then dflt else s
  | some (FormEntry.file _) => "[object File]"

/-- The normalized ordered image sequence: the singular `file` entry first
when it is a `File`, followed by every `File` among the `files[]` entries in
submission order (non-`File` entries are skipped, mirroring the
`instanceof File` guards). -/
def inputFiles (form : Form) : List ImgFile :=
  (match form.file with
   | some (FormEntry.file f) => [f]
   | _ => []) ++
  form.files.filterMap (fun e =>
    match e with
    | FormEntry.file f => some f
    | FormEntry.str _ => none)

/-- `inputFiles.reduce((s, f) => s + f.size, 0)`. -/
def totalSize (files : List ImgFile) : Nat :=
  files.foldl (fun s f => s + f.size) 0

/-- `Math.round(totalSize / 1024 / 1024)`.  Both divisions are by powers of
two, hence exact in IEEE doubles for any realistic byte count, so the JS
value is the rational `t / 2^20` and `Math.round` (ties toward +inf) is
`⌊(2·t + 2^20) / 2^21⌋`. -/
def jsRoundMB (t : Nat) : Nat :=
  (2 * t + 1024 * 1024) / (2 * (1024 * 1024))

/-- The standard base64 alphabet. -/
def base64Alphabet : List Char :=
  "ABCDEFGHIJKLMNOPQRSTUVWXYZabcdefghijklmnopqrstuvwxyz0123456789+/".data

/-- One base64 digit. -/
def b64digit (n : Nat) : Char :=
  base64Alphabet.getD n 'A'

/-- `Buffer.from(bytes).toString("base64")`: standard base64 with padding. -/
def base64Encode : List Nat → String
  | [] => ""
  | [a] =>
      String.mk [b64digit (a / 4 % 64), b64digit (a % 4 * 16), '=', '=']
  | [a, b] =>
      String.mk [b64digit (a / 4 % 64), b64digit (a % 4 * 16 + b / 16 % 16),
                 b64digit (b % 16 * 4), '=']
  | a :: b :: c :: rest =>
      String.mk [b64digit (a / 4 % 64), b64digit (a % 4 * 16 + b / 16 % 16),
                 b64digit (b % 16 * 4 + c / 64 % 4), b64digit (c % 64)] ++
      base64Encode rest

/-- `data:${mimeType};base64,${base64}` with the `f.type || "image/jpeg"`
fallback for an empty declared type. -/
def dataUrl (f : ImgFile) : String :=
  "data:" ++ (if f.type == "" then "image/jpeg" else f.type) ++ ";base64," ++
    base64Encode f.data

/-- `buildSystemPrompt(targetLang, format)`: deterministic construction of
the system prompt from the target language and the output format. -/
def buildSystemPrompt (targetLang format : String) : String :=
  let shouldTranslate := !(targetLang == "") && !(targetLang == "auto")
  let languageDirective :=
    if shouldTranslate then
      "Output language: " ++ targetLang ++ ". Translate ALL textual content into " ++
        targetLang ++
        ", including brand and product names, headings, labels, tables and lists. Do NOT mix languages. Preserve numbers, currency symbols, and layout semantics."
    else
      "Output language: keep the original language; do NOT translate."
  if format == "json" then
    String.intercalate "\n"
      [ "You are a reliable, precise vision OCR engine.",
        "Goal: detect the document type and return STRICT JSON only (no extra text).",
        languageDirective,
        "Rules:",
        "- Return ONLY valid JSON (no prose, no code fences).",
        "- No hallucinations: omit unknown fields; use 'UNKNOWN' if unreadable.",
        "- Keys MUST be camelCase; values plain strings/numbers/arrays/objects.",
        "- Include language (BCP-47) and text in reading order.",
        "Suggested flexible schema (include only relevant keys):",
        "\x7b",
        "  documentType: string,",
        "  language?: string,",
        "  title?: string,",
        "  text: string,",
        "  keyValues?: [\x7b key: string, value: string \x7d],",
        "  sections?: [\x7b title?: string, keyValues?: [\x7b key: string, value: string \x7d], paragraphs?: string[] \x7d],",
        "  lists?: [\x7b ordered: boolean, items: string[] \x7d],",
        "  tables?: [\x7b headers?: string[], rows: string[][] \x7d],",
        "  entities?: [\x7b label: string, value: string \x7d],",
        "  totals?: \x7b currency?: string, subtotal?: number, tax?: number, tip?: number, total?: number \x7d,",
        "  parties?: \x7b seller?: \x7b name?: string, address?: string, vatId?: string \x7d, buyer?: \x7b name?: string, address?: string, vatId?: string \x7d \x7d,",
        "  references?: \x7b invoiceNumber?: string, orderNumber?: string, transactionId?: string \x7d",
        "\x7d",
        "Constraints:",
        "- Dates ISO when possible (YYYY-MM-DD); amounts as numbers (no currency symbol).",
        "- Preserve numbers, currency symbols in text where applicable." ]
  else
    String.intercalate "\n"
      [ "You are a reliable, precise vision OCR engine.",
        "Goal: accurately extract the text and structure from the image and return valid Markdown.",
        "General rules:",
        languageDirective,
        "- Do not hallucinate. If something is missing or unreadable, use 'UNKNOWN'.",
        "- Preserve the logical reading order (left → right, top → bottom).",
        "- Preserve case, numbers, dates, symbols, units, and punctuation.",
        "- For tables, render as proper Markdown tables with headers if present.",
        "- For lists, use Markdown lists (unordered or ordered).",
        "- For headings, use consistent Markdown levels (#, ##, ###).",
        "- Do not add explanations beyond OCR content.",
        "- Return only valid Markdown." ]

/-- The `translateHint` prefixed to the user message. -/
def translateHint (targetLang : String) : String :=
  if !(targetLang == "") && !(targetLang == "auto") then
    "Target language: " ++ targetLang ++ ". Translate ALL textual content into " ++
      targetLang ++ ". Preserve numbers, currency symbols, and layout semantics."
  else
    "Target language: source language (no translation)."

/-- The single text part of the user message. -/
def userMessageText (targetLang format : String) : String :=
  translateHint targetLang ++
    (if format == "json" then
      " Analyze these page image(s) and return ONLY valid JSON following the schema and rules above."
    else
      " Analyze these page image(s), extract text and structure, and return valid Markdown.")

/-- One call issued to the provider's `generateText`: the system prompt, the
user message's text part, the image data URLs in submission order, and the
fixed sampling parameters. -/
structure ProviderCall where
  system : String
  userText : String
  images : List String
  temperature : ℚ
  maxSteps : Nat
deriving DecidableEq

/-- The provider call assembled from a validated form. -/
def ocrCall (form : Form) : ProviderCall :=
  let targetLang := jsStringOr form.targetLang "auto"
  let format := jsStringOr form.format "markdown"
  { system := buildSystemPrompt targetLang format
    userText := userMessageText targetLang format
    images := (inputFiles form).map dataUrl
    temperature := 1 / 10
    maxSteps := 1 }

/-- A JSON value, for responses produced via `Response.json`. -/
inductive Jv where
  | null
  | bool (b : Bool)
  | num (q : ℚ)
  | str (s : String)
  | arr (elems : List Jv)
  | obj (fields : List (String × Jv))

/-- A response body: plain text or a JSON value. -/
inductive RespBody where
  | text (s : String)
  | json (v : Jv)

/-- An HTTP response: status, body, and the explicitly set content-type
header when there is one. -/
structure Resp where
  status : Nat
  body : RespBody
  contentType : Option String

/-- An incoming request: the Content-Type header (possibly absent) and the
multipart form carried by the body. -/
structure Req where
  contentType : Option String
  form : Form

/-- The tail of the handler once every validation check has passed: issue the
provider call and normalize its result.  `Except.error` models a thrown
provider error; the outer handler turns its message `m` into a 500
`Erreur: m`.  The JSON format path attempts `JSON.parse` (abstracted by
`jsParse`; `none` = throws) and on failure wraps the raw text under a
`content` key. -/
def providerStage (jsParse : String → Option Jv)
    (gen : ProviderCall → Except String String) (form : Form) :
    Resp × List ProviderCall :=
  let call := ocrCall form
  match gen call with
  | Except.error m =>
      (⟨500, RespBody.text ("Erreur: " ++ m), none⟩, [call])
  | Except.ok text =>
      let format := jsStringOr form.format "markdown"
      if format == "json" then
        match jsParse text with
        | some parsed =>
            (⟨200, RespBody.json parsed, some "application/json"⟩, [call])
        | none =>
            (⟨200, RespBody.json (Jv.obj [("content", Jv.str text)]), some "application/json"⟩, [call])
      else
        (⟨200, RespBody.text text, some "text/markdown; charset=utf-8"⟩, [call])

/-- The `POST /api/ocr` handler (multi-file dispatcher revision): the
validation sequence (Content-Type, file presence, MIME types, total size;
first failure wins) followed by `providerStage`.  Returns the response
together with the list of provider calls made while handling the request. -/
def POST (jsParse : String → Option Jv) (gen : ProviderCall → Except String String)
    (req : Req) : Resp × List ProviderCall :=
  let contentType := req.contentType.getD ""
  if containsStr contentType "multipart/form-data" = false then
    (⟨400, RespBody.text "Content-Type must be multipart/form-data", none⟩, [])
  else
    let files := inputFiles req.form
    if files.isEmpty then
      (⟨400, RespBody.text "Missing image file(s) (JPEG/PNG only)", none⟩, [])
    else if files.any (fun f => !(startsWithStr f.type "image/")) then
      (⟨415, RespBody.text "Only JPEG and PNG images are accepted (PDF must be converted client-side)", none⟩, [])
    else if 4 * 1024 * 1024 < totalSize files then
      (⟨413, RespBody.text ("Fichiers trop volumineux (" ++ toString (jsRoundMB (totalSize files)) ++ "MB > 4MB)."), none⟩, [])
    else
      providerStage jsParse gen req.form

/-! ## Client preprocessor (`compressImage`) -/

/-- A client-side image file as `compressImage` sees it: the declared MIME
type and the decoded pixel dimensions (`img.width`/`img.height`, JS
numbers modelled as rationals). -/
structure ClientImageFile where
  type : String
  width : ℚ
  height : ℚ
deriving DecidableEq

/-- The dimension computation of `compressImage`: proportional scaling so
that neither dimension exceeds `maxDimension`, mirroring the two branches of
the source (`width > height && width > maxDimension`, then
`height > maxDimension`). -/
def compressDims (maxDimension w h : ℚ) : ℚ × ℚ :=
  if w > h ∧ w > maxDimension then (maxDimension, h * maxDimension / w)
  else if h > maxDimension then (w * maxDimension / h, maxDimension)
  else (w, h)

/-- `compressImage`: on successful JPEG re-encoding (`canvas.toBlob`
produced a blob, modelled by `encoded = true`) the result is a JPEG-typed
file at the scaled canvas dimensions; on encoder failure the original file
is resolved unmodified. -/
def compressImage (maxDimension : ℚ) (file : ClientImageFile)
    (encoded : Bool) : ClientImageFile :=
  if encoded then
    { type := "image/jpeg"
      width := (compressDims maxDimension file.width file.height).1
      height := (compressDims maxDimension file.width file.height).2 }
  else
    file

/-- The dimension ceiling of the single-image client's `compressImage`. -/
def singleImageClientMaxDimension : ℚ := 1200

/-- The dimension ceiling of the multi-page client's `compressImage`. -/
def multiPageClientMaxDimension : ℚ := 720

/-! ## Theorems settling the claims -/


theorem POST_not_multipart (p : String → Option Jv) (g : ProviderCall → Except String String)
    (req : Req) (h : containsStr (req.contentType.getD "") "multipart/form-data" = false) :
    POST p g req =
      (⟨400, RespBody.text "Content-Type must be multipart/form-data", none⟩, []) := by
  simp [POST, h]

theorem POST_missing (p : String → Option Jv) (g : ProviderCall → Except String String)
    (req : Req)
    (h1 : containsStr (req.contentType.getD "") "multipart/form-data" = true)
    (h2 : (inputFiles req.form).isEmpty = true) :
    POST p g req =
      (⟨400, RespBody.text "Missing image file(s) (JPEG/PNG only)", none⟩, []) := by
  simp [POST, h1, h2]

theorem POST_415_of (p : String → Option Jv) (g : ProviderCall → Except String String)
    (req : Req)
    (h1 : containsStr (req.contentType.getD "") "multipart/form-data" = true)
    (h2 : (inputFiles req.form).isEmpty = false)
    (h3 : (inputFiles req.form).any (fun f => !(startsWithStr f.type "image/")) = true) :
    POST p g req =
      (⟨415, RespBody.text "Only JPEG and PNG images are accepted (PDF must be converted client-side)", none⟩, []) := by
  simp [POST, h1, h2, h3]

theorem POST_413_of (p : String → Option Jv) (g : ProviderCall → Except String String)
    (req : Req)
    (h1 : containsStr (req.contentType.getD "") "multipart/form-data" = true)
    (h2 : (inputFiles req.form).isEmpty = false)
    (h3 : (inputFiles req.form).any (fun f => !(startsWithStr f.type "image/")) = false)
    (h4 : 4 * 1024 * 1024 < totalSize (inputFiles req.form)) :
    POST p g req =
      (⟨413, RespBody.text ("Fichiers trop volumineux (" ++
          toString (jsRoundMB (totalSize (inputFiles req.form))) ++ "MB > 4MB)."), none⟩, []) := by
  simp [POST, h1, h2, h3, h4]

theorem POST_valid (p : String → Option Jv) (g : ProviderCall → Except String String)
    (req : Req)
    (h1 : containsStr (req.contentType.getD "") "multipart/form-data" = true)
    (h2 : (inputFiles req.form).isEmpty = false)
    (h3 : (inputFiles req.form).any (fun f => !(startsWithStr f.type "image/")) = false)
    (h4 : ¬ 4 * 1024 * 1024 < totalSize (inputFiles req.form)) :
    POST p g req = providerStage p g req.form := by
  simp [POST, h1, h2, h3, h4]

theorem providerStage_calls (p : String → Option Jv) (g : ProviderCall → Except String String)
    (form : Form) : (providerStage p g form).2 = [ocrCall form] := by
  unfold providerStage
  dsimp only
  cases hg : g (ocrCall form) with
  | error m => rfl
  | ok t =>
    dsimp only
    split
    · cases p t <;> rfl
    · rfl

theorem providerStage_status (p : String → Option Jv) (g : ProviderCall → Except String String)
    (form : Form) :
    (providerStage p g form).1.status = 500 ∨ (providerStage p g form).1.status = 200 := by
  unfold providerStage
  dsimp only
  cases hg : g (ocrCall form) with
  | error m => left; rfl
  | ok t =>
    right
    dsimp only
    split
    · cases p t <;> rfl
    · rfl

theorem nonempty_of_oversize (form : Form)
    (hsize : 4 * 1024 * 1024 < totalSize (inputFiles form)) :
    (inputFiles form).isEmpty = false := by
  cases hf : inputFiles form with
  | nil =>
    rw [hf] at hsize
    simp [totalSize] at hsize
  | cons a l => rfl

/-- C8: a request whose Content-Type does not declare multipart form data is
answered 400 immediately; the response is the same whatever the body's form
contains (the form is never consumed and no later validation step runs). -/
theorem post_non_multipart_400_short_circuits (p : String → Option Jv)
    (g : ProviderCall → Except String String) (ct : Option String)
    (form form' : Form)
    (h : containsStr (ct.getD "") "multipart/form-data" = false) :
    POST p g ⟨ct, form⟩ =
      (⟨400, RespBody.text "Content-Type must be multipart/form-data", none⟩, []) ∧
    POST p g ⟨ct, form⟩ = POST p g ⟨ct, form'⟩ := by
  have a := POST_not_multipart p g ⟨ct, form⟩ h
  have b := POST_not_multipart p g ⟨ct, form'⟩ h
  exact ⟨a, a.trans b.symm⟩

theorem post_non_multipart_400_short_circuits_witness :
    containsStr "text/plain" "multipart/form-data" = false ∧
    POST (fun _ => none) (fun _ => Except.ok "x")
        ⟨some "text/plain", ⟨none, [], none, none⟩⟩ =
      (⟨400, RespBody.text "Content-Type must be multipart/form-data", none⟩, []) :=
  ⟨by decide,
   (post_non_multipart_400_short_circuits (fun _ => none) (fun _ => Except.ok "x")
      (some "text/plain") ⟨none, [], none, none⟩
      ⟨some (FormEntry.file ⟨"image/png", 3, [1, 2, 3]⟩), [], none, none⟩
      (by decide)).1⟩

/-- C1: whenever the summed size of the uploaded files exceeds 4 MiB the
provider is never invoked, and (for a multipart upload of image files) the
endpoint answers 413 with a message stating the observed total size in
megabytes. -/
theorem post_oversize_413_no_provider (p : String → Option Jv)
    (g : ProviderCall → Except String String) (ct : Option String) (form : Form)
    (hsize : 4 * 1024 * 1024 < totalSize (inputFiles form)) :
    (POST p g ⟨ct, form⟩).2 = [] ∧
    (containsStr (ct.getD "") "multipart/form-data" = true →
      (inputFiles form).any (fun f => !(startsWithStr f.type "image/")) = false →
      POST p g ⟨ct, form⟩ =
        (⟨413, RespBody.text ("Fichiers trop volumineux (" ++
            toString (jsRoundMB (totalSize (inputFiles form))) ++ "MB > 4MB)."), none⟩, [])) := by
  have hne : (inputFiles form).isEmpty = false := nonempty_of_oversize form hsize
  constructor
  · by_cases h1 : containsStr (ct.getD "") "multipart/form-data" = true
    · by_cases h3 : (inputFiles form).any (fun f => !(startsWithStr f.type "image/")) = true
      · rw [POST_415_of p g ⟨ct, form⟩ h1 hne h3]
      · rw [Bool.not_eq_true] at h3
        rw [POST_413_of p g ⟨ct, form⟩ h1 hne h3 hsize]
    · rw [Bool.not_eq_true] at h1
      rw [POST_not_multipart p g ⟨ct, form⟩ h1]
  · intro h1 h3
    exact POST_413_of p g ⟨ct, form⟩ h1 hne h3 hsize

theorem post_oversize_413_no_provider_witness :
    4 * 1024 * 1024 <
      totalSize (inputFiles ⟨some (FormEntry.file ⟨"image/png", 5000000, []⟩), [], none, none⟩) ∧
    POST (fun _ => none) (fun _ => Except.ok "x")
        ⟨some "multipart/form-data; boundary=x",
         ⟨some (FormEntry.file ⟨"image/png", 5000000, []⟩), [], none, none⟩⟩ =
      (⟨413, RespBody.text "Fichiers trop volumineux (5MB > 4MB).", none⟩, []) :=
  ⟨by decide,
   by
    have h := (post_oversize_413_no_provider (fun _ => none) (fun _ => Except.ok "x")
        (some "multipart/form-data; boundary=x")
        ⟨some (FormEntry.file ⟨"image/png", 5000000, []⟩), [], none, none⟩
        (by decide)).2 (by decide) (by decide)
    rw [h]
    rfl⟩

/-- C2: for a multipart request carrying at least one file, the endpoint's
status is 415 exactly when some submitted file's declared MIME type does not
begin with `image/`; files whose type begins with `image/` never cause a
415. -/
theorem post_415_iff_bad_mime (p : String → Option Jv)
    (g : ProviderCall → Except String String) (ct : Option String) (form : Form)
    (h1 : containsStr (ct.getD "") "multipart/form-data" = true)
    (h2 : inputFiles form ≠ []) :
    (POST p g ⟨ct, form⟩).1.status = 415 ↔
      ∃ f ∈ inputFiles form, startsWithStr f.type "image/" = false := by
  have hne : (inputFiles form).isEmpty = false := by
    cases hf : inputFiles form with
    | nil => exact absurd hf h2
    | cons a l => rfl
  by_cases h3 : (inputFiles form).any (fun f => !(startsWithStr f.type "image/")) = true
  · rw [POST_415_of p g ⟨ct, form⟩ h1 hne h3]
    refine iff_of_true rfl ?_
    rcases List.any_eq_true.mp h3 with ⟨f, hf, hbad⟩
    exact ⟨f, hf, by simpa using hbad⟩
  · rw [Bool.not_eq_true] at h3
    refine iff_of_false ?_ ?_
    · by_cases h4 : 4 * 1024 * 1024 < totalSize (inputFiles form)
      · rw [POST_413_of p g ⟨ct, form⟩ h1 hne h3 h4]
        simp
      · rw [POST_valid p g ⟨ct, form⟩ h1 hne h3 h4]
        rcases providerStage_status p g form with h | h <;> rw [h] <;> decide
    · rintro ⟨f, hf, hbad⟩
      have := List.any_eq_false.mp h3 f hf
      simp [hbad] at this

theorem post_415_iff_bad_mime_witness :
    (POST (fun _ => none) (fun _ => Except.ok "x")
        ⟨some "multipart/form-data",
         ⟨some (FormEntry.file ⟨"application/pdf", 10, []⟩), [], none, none⟩⟩).1.status = 415 :=
  (post_415_iff_bad_mime (fun _ => none) (fun _ => Except.ok "x")
      (some "multipart/form-data")
      ⟨some (FormEntry.file ⟨"application/pdf", 10, []⟩), [], none, none⟩
      (by decide) (by decide)).mpr
    ⟨⟨"application/pdf", 10, []⟩, by decide, by decide⟩



theorem markdown_beq_json : (("markdown" : String) == "json") = false := by decide

/-- C7: a validated markdown-format request whose provider call returns `T`
is answered 200 with body exactly `T` and the Markdown content type. -/
theorem post_markdown_200 (p : String → Option Jv)
    (g : ProviderCall → Except String String) (ct : Option String) (form : Form)
    (T : String)
    (h1 : containsStr (ct.getD "") "multipart/form-data" = true)
    (h2 : (inputFiles form).isEmpty = false)
    (h3 : (inputFiles form).any (fun f => !(startsWithStr f.type "image/")) = false)
    (h4 : ¬ 4 * 1024 * 1024 < totalSize (inputFiles form))
    (hfmt : jsStringOr form.format "markdown" = "markdown")
    (hgen : g (ocrCall form) = Except.ok T) :
    POST p g ⟨ct, form⟩ =
      (⟨200, RespBody.text T, some "text/markdown; charset=utf-8"⟩, [ocrCall form]) := by
  rw [POST_valid p g ⟨ct, form⟩ h1 h2 h3 h4]
  simp [providerStage, hgen, hfmt, markdown_beq_json]

theorem post_markdown_200_witness :
    POST (fun _ => none) (fun _ => Except.ok "# Title")
        ⟨some "multipart/form-data; boundary=q",
         ⟨some (FormEntry.file ⟨"image/png", 7, [1, 2]⟩), [], some (FormEntry.str "auto"),
          some (FormEntry.str "markdown")⟩⟩ =
      (⟨200, RespBody.text "# Title", some "text/markdown; charset=utf-8"⟩,
       [ocrCall ⟨some (FormEntry.file ⟨"image/png", 7, [1, 2]⟩), [], some (FormEntry.str "auto"),
          some (FormEntry.str "markdown")⟩]) :=
  post_markdown_200 (fun _ => none) (fun _ => Except.ok "# Title")
    (some "multipart/form-data; boundary=q")
    ⟨some (FormEntry.file ⟨"image/png", 7, [1, 2]⟩), [], some (FormEntry.str "auto"),
     some (FormEntry.str "markdown")⟩ "# Title"
    (by decide) (by decide) (by decide) (by decide) rfl rfl

/-- C4: a validated json-format request whose provider call returns `T` is
answered with the parse of `T` when `T` is valid JSON, and with the JSON
object wrapping `T` under a `content` key otherwise; either way the body is
a JSON value. -/
theorem post_json_parse_or_wrap (p : String → Option Jv)
    (g : ProviderCall → Except String String) (ct : Option String) (form : Form)
    (T : String)
    (h1 : containsStr (ct.getD "") "multipart/form-data" = true)
    (h2 : (inputFiles form).isEmpty = false)
    (h3 : (inputFiles form).any (fun f => !(startsWithStr f.type "image/")) = false)
    (h4 : ¬ 4 * 1024 * 1024 < totalSize (inputFiles form))
    (hfmt : jsStringOr form.format "markdown" = "json")
    (hgen : g (ocrCall form) = Except.ok T) :
    (∀ v, p T = some v →
      POST p g ⟨ct, form⟩ =
        (⟨200, RespBody.json v, some "application/json"⟩, [ocrCall form])) ∧
    (p T = none →
      POST p g ⟨ct, form⟩ =
        (⟨200, RespBody.json (Jv.obj [("content", Jv.str T)]), some "application/json"⟩,
         [ocrCall form])) := by
  rw [POST_valid p g ⟨ct, form⟩ h1 h2 h3 h4]
  constructor
  · intro v hv
    simp [providerStage, hgen, hfmt, hv]
  · intro hn
    simp [providerStage, hgen, hfmt, hn]

theorem post_json_parse_or_wrap_witness :
    POST (fun _ => none) (fun _ => Except.ok "not json")
        ⟨some "multipart/form-data",
         ⟨some (FormEntry.file ⟨"image/png", 7, [1, 2]⟩), [], none,
          some (FormEntry.str "json")⟩⟩ =
      (⟨200, RespBody.json (Jv.obj [("content", Jv.str "not json")]), some "application/json"⟩,
       [ocrCall ⟨some (FormEntry.file ⟨"image/png", 7, [1, 2]⟩), [], none,
          some (FormEntry.str "json")⟩]) :=
  (post_json_parse_or_wrap (fun _ => none) (fun _ => Except.ok "not json")
      (some "multipart/form-data")
      ⟨some (FormEntry.file ⟨"image/png", 7, [1, 2]⟩), [], none, some (FormEntry.str "json")⟩
      "not json" (by decide) (by decide) (by decide) (by decide) rfl rfl).2 rfl

/-- C3: the singular `file` field and the repeated `files[]` field are
normalized into one ordered image sequence, singular first, and that
sequence — validated by the checks — is what is base64-encoded into data
URLs and sent to the provider as the image parts of the single call. -/
theorem post_normalizes_image_sequence (p : String → Option Jv)
    (g : ProviderCall → Except String String) (ct : Option String)
    (single : Option (FormEntry ImgFile)) (many : List (FormEntry ImgFile))
    (tl fm : Option (FormEntry ImgFile))
    (h1 : containsStr (ct.getD "") "multipart/form-data" = true)
    (h2 : (inputFiles (Form.mk single many tl fm)).isEmpty = false)
    (h3 : (inputFiles (Form.mk single many tl fm)).any
        (fun f => !(startsWithStr f.type "image/")) = false)
    (h4 : ¬ 4 * 1024 * 1024 < totalSize (inputFiles (Form.mk single many tl fm))) :
    inputFiles (Form.mk single many tl fm) =
      (fun s : Option (FormEntry ImgFile) =>
        match s with
        | some (FormEntry.file f) => [f]
        | _ => []) single ++
      many.filterMap (fun e =>
        match e with
        | FormEntry.file f => some f
        | FormEntry.str _ => none) ∧
    (POST p g ⟨ct, Form.mk single many tl fm⟩).2 =
      [{ system := buildSystemPrompt (jsStringOr tl "auto") (jsStringOr fm "markdown")
         userText := userMessageText (jsStringOr tl "auto") (jsStringOr fm "markdown")
         images := (inputFiles (Form.mk single many tl fm)).map dataUrl
         temperature := 1 / 10
         maxSteps := 1 }] := by
  refine ⟨rfl, ?_⟩
  calc (POST p g ⟨ct, Form.mk single many tl fm⟩).2
      = (providerStage p g (Form.mk single many tl fm)).2 := by
        rw [POST_valid p g ⟨ct, Form.mk single many tl fm⟩ h1 h2 h3 h4]
    _ = [ocrCall (Form.mk single many tl fm)] := providerStage_calls p g _
    _ = _ := rfl

theorem post_normalizes_image_sequence_witness :
    (POST (fun _ => none) (fun _ => Except.ok "x")
        ⟨some "multipart/form-data",
         ⟨some (FormEntry.file ⟨"image/png", 1, [5]⟩),
          [FormEntry.file ⟨"image/jpeg", 1, [6]⟩, FormEntry.str "noise",
           FormEntry.file ⟨"image/webp", 1, [7]⟩],
          none, none⟩⟩).2 =
      [{ system := buildSystemPrompt "auto" "markdown"
         userText := userMessageText "auto" "markdown"
         images := [dataUrl ⟨"image/png", 1, [5]⟩, dataUrl ⟨"image/jpeg", 1, [6]⟩,
                    dataUrl ⟨"image/webp", 1, [7]⟩]
         temperature := 1 / 10
         maxSteps := 1 }] :=
  (post_normalizes_image_sequence (fun _ => none) (fun _ => Except.ok "x")
      (some "multipart/form-data")
      (some (FormEntry.file ⟨"image/png", 1, [5]⟩))
      [FormEntry.file ⟨"image/jpeg", 1, [6]⟩, FormEntry.str "noise",
       FormEntry.file ⟨"image/webp", 1, [7]⟩]
      none none (by decide) (by decide) (by decide) (by decide)).2



/-- C9: the `format` field is never validated.  Any request that the
validation sequence rejects is rejected identically whatever its `format`
value, and any validated request whose (defaulted) format differs from
`"json"` — absent, empty, or arbitrary like `"xml"` — takes the Markdown
response path. -/
theorem post_format_never_validated (p : String → Option Jv)
    (g : ProviderCall → Except String String) (ct : Option String)
    (file : Option (FormEntry ImgFile)) (files : List (FormEntry ImgFile))
    (tl v w : Option (FormEntry ImgFile)) (T : String) :
    (((POST p g ⟨ct, Form.mk file files tl v⟩).1.status ≠ 200 ∧
      (POST p g ⟨ct, Form.mk file files tl v⟩).1.status ≠ 500) →
      POST p g ⟨ct, Form.mk file files tl v⟩ = POST p g ⟨ct, Form.mk file files tl w⟩) ∧
    (containsStr (ct.getD "") "multipart/form-data" = true →
     (inputFiles (Form.mk file files tl v)).isEmpty = false →
     (inputFiles (Form.mk file files tl v)).any
        (fun f => !(startsWithStr f.type "image/")) = false →
     ¬ 4 * 1024 * 1024 < totalSize (inputFiles (Form.mk file files tl v)) →
     jsStringOr v "markdown" ≠ "json" →
     g (ocrCall (Form.mk file files tl v)) = Except.ok T →
     POST p g ⟨ct, Form.mk file files tl v⟩ =
       (⟨200, RespBody.text T, some "text/markdown; charset=utf-8"⟩,
        [ocrCall (Form.mk file files tl v)])) := by
  constructor
  · rintro ⟨hn200, hn500⟩
    by_cases h1 : containsStr (ct.getD "") "multipart/form-data" = true
    · by_cases h2 : (inputFiles (Form.mk file files tl v)).isEmpty = true
      · rw [POST_missing p g ⟨ct, Form.mk file files tl v⟩ h1 h2,
            POST_missing p g ⟨ct, Form.mk file files tl w⟩ h1 h2]
      · rw [Bool.not_eq_true] at h2
        by_cases h3 : (inputFiles (Form.mk file files tl v)).any
            (fun f => !(startsWithStr f.type "image/")) = true
        · rw [POST_415_of p g ⟨ct, Form.mk file files tl v⟩ h1 h2 h3,
              POST_415_of p g ⟨ct, Form.mk file files tl w⟩ h1 h2 h3]
        · rw [Bool.not_eq_true] at h3
          by_cases h4 : 4 * 1024 * 1024 < totalSize (inputFiles (Form.mk file files tl v))
          · rw [POST_413_of p g ⟨ct, Form.mk file files tl v⟩ h1 h2 h3 h4,
                POST_413_of p g ⟨ct, Form.mk file files tl w⟩ h1 h2 h3 h4]
            rfl
          · exfalso
            rw [POST_valid p g ⟨ct, Form.mk file files tl v⟩ h1 h2 h3 h4] at hn200 hn500
            rcases providerStage_status p g (Form.mk file files tl v) with h | h
            · exact hn500 h
            · exact hn200 h
    · rw [Bool.not_eq_true] at h1
      rw [POST_not_multipart p g ⟨ct, Form.mk file files tl v⟩ h1,
          POST_not_multipart p g ⟨ct, Form.mk file files tl w⟩ h1]
  · intro h1 h2 h3 h4 hfmt hgen
    rw [POST_valid p g ⟨ct, Form.mk file files tl v⟩ h1 h2 h3 h4]
    have hb : (jsStringOr v "markdown" == "json") = false := beq_eq_false_iff_ne.mpr hfmt
    simp [providerStage, hgen, hb]

theorem post_format_never_validated_witness :
    jsStringOr (some (FormEntry.str "xml")) "markdown" ≠ "json" ∧
    POST (fun _ => none) (fun _ => Except.ok "body")
        ⟨some "multipart/form-data",
         ⟨some (FormEntry.file ⟨"image/png", 2, [9]⟩), [], none,
          some (FormEntry.str "xml")⟩⟩ =
      (⟨200, RespBody.text "body", some "text/markdown; charset=utf-8"⟩,
       [ocrCall ⟨some (FormEntry.file ⟨"image/png", 2, [9]⟩), [], none,
          some (FormEntry.str "xml")⟩]) :=
  ⟨by decide,
   (post_format_never_validated (fun _ => none) (fun _ => Except.ok "body")
      (some "multipart/form-data") (some (FormEntry.file ⟨"image/png", 2, [9]⟩)) [] none
      (some (FormEntry.str "xml")) none "body").2
     (by decide) (by decide) (by decide) (by decide) (by decide) rfl⟩

/-- C10: an empty `targetLang` field behaves exactly like `"auto"`: the
default substitution on receipt collapses it to `"auto"`, the prompt
builder's falsy check selects the no-translation directive for both, and
the whole request pipeline produces identical results. -/
theorem post_empty_targetLang_is_auto (p : String → Option Jv)
    (g : ProviderCall → Except String String) (ct : Option String)
    (file : Option (FormEntry ImgFile)) (files : List (FormEntry ImgFile))
    (fm : Option (FormEntry ImgFile)) :
    POST p g ⟨ct, Form.mk file files (some (FormEntry.str "")) fm⟩ =
      POST p g ⟨ct, Form.mk file files (some (FormEntry.str "auto")) fm⟩ ∧
    (∀ format, buildSystemPrompt "" format = buildSystemPrompt "auto" format) ∧
    translateHint "" = translateHint "auto" ∧
    (∀ format, userMessageText "" format = userMessageText "auto" format) := by
  refine ⟨rfl, fun format => rfl, rfl, fun format => rfl⟩



set_option maxRecDepth 10000 in
set_option maxHeartbeats 1600000 in
/-- C5: the system prompt is a pure function of target language and output
format; with `targetLang = "auto"` it carries the no-translation directive
and no translation directive, and with a concrete code such as `"fr"` it
carries a translate-into-`fr` directive and no no-translation directive. -/
theorem buildSystemPrompt_language_directives :
    (∀ l1 f1 l2 f2, l1 = l2 → f1 = f2 →
      buildSystemPrompt l1 f1 = buildSystemPrompt l2 f2) ∧
    (∀ format,
      containsStr (buildSystemPrompt "auto" format)
          "keep the original language; do NOT translate" = true ∧
      containsStr (buildSystemPrompt "auto" format)
          "Translate ALL textual content into" = false) ∧
    (∀ format,
      containsStr (buildSystemPrompt "fr" format)
          "Translate ALL textual content into fr" = true ∧
      containsStr (buildSystemPrompt "fr" format)
          "keep the original language; do NOT translate" = false) := by
  refine ⟨fun l1 f1 l2 f2 hl hf => by rw [hl, hf], fun format => ?_, fun format => ?_⟩
  · by_cases hf : format = "json"
    · subst hf
      exact ⟨by decide, by decide⟩
    · have hb : (format == "json") = false := beq_eq_false_iff_ne.mpr hf
      have hrw : buildSystemPrompt "auto" format = buildSystemPrompt "auto" "markdown" := by
        unfold buildSystemPrompt
        simp [hb, markdown_beq_json]
      rw [hrw]
      exact ⟨by decide, by decide⟩
  · by_cases hf : format = "json"
    · subst hf
      exact ⟨by decide, by decide⟩
    · have hb : (format == "json") = false := beq_eq_false_iff_ne.mpr hf
      have hrw : buildSystemPrompt "fr" format = buildSystemPrompt "fr" "markdown" := by
        unfold buildSystemPrompt
        simp [hb, markdown_beq_json]
      rw [hrw]
      exact ⟨by decide, by decide⟩

theorem buildSystemPrompt_language_directives_witness :
    ("auto" : String) = "auto" ∧
    buildSystemPrompt "auto" "markdown" = buildSystemPrompt "auto" "markdown" ∧
    containsStr (buildSystemPrompt "fr" "markdown")
        "Translate ALL textual content into fr" = true :=
  ⟨rfl,
   buildSystemPrompt_language_directives.1 "auto" "markdown" "auto" "markdown" rfl rfl,
   (buildSystemPrompt_language_directives.2.2 "markdown").1⟩

theorem compressDims_le (maxD w h : ℚ) (hpos : 0 < maxD) (hw : 0 ≤ w) (hh : 0 ≤ h) :
    (compressDims maxD w h).1 ≤ maxD ∧ (compressDims maxD w h).2 ≤ maxD := by
  unfold compressDims
  split_ifs with hb1 hb2
  · have hw0 : 0 < w := lt_trans hpos hb1.2
    refine ⟨le_refl _, ?_⟩
    show h * maxD / w ≤ maxD
    rw [div_le_iff₀ hw0]
    nlinarith [hb1.1, hpos.le]
  · have hh0 : 0 < h := lt_trans hpos hb2
    have hwle : w ≤ h := by
      rcases not_and_or.mp hb1 with hc | hc
      · exact le_of_not_lt hc
      · exact (le_of_not_lt hc).trans hb2.le
    refine ⟨?_, le_refl _⟩
    show w * maxD / h ≤ maxD
    rw [div_le_iff₀ hh0]
    nlinarith [mul_le_mul_of_nonneg_right hwle hpos.le]
  · have hhle : h ≤ maxD := le_of_not_lt hb2
    have hwle : w ≤ maxD := by
      rcases not_and_or.mp hb1 with hc | hc
      · exact (le_of_not_lt hc).trans hhle
      · exact le_of_not_lt hc
    exact ⟨hwle, hhle⟩

/-- C6: at either configured ceiling (1200 for the single-image client, 720
for the multi-page client) a successfully re-encoded image is JPEG-typed
with neither dimension above the ceiling, and on encoder failure the
original file is returned unmodified. -/
theorem compressImage_bounded (maxD : ℚ) (file : ClientImageFile) (encoded : Bool)
    (hmax : maxD = singleImageClientMaxDimension ∨ maxD = multiPageClientMaxDimension)
    (hw : 0 ≤ file.width) (hh : 0 ≤ file.height) :
    (encoded = true →
      (compressImage maxD file encoded).type = "image/jpeg" ∧
      (compressImage maxD file encoded).width ≤ maxD ∧
      (compressImage maxD file encoded).height ≤ maxD) ∧
    (encoded = false → compressImage maxD file encoded = file) := by
  have hpos : (0 : ℚ) < maxD := by
    rcases hmax with h | h <;> rw [h] <;>
      norm_num [singleImageClientMaxDimension, multiPageClientMaxDimension]
  constructor
  · intro he
    subst he
    have hb := compressDims_le maxD file.width file.height hpos hw hh
    exact ⟨rfl, hb.1, hb.2⟩
  · intro he
    subst he
    rfl

theorem compressImage_bounded_witness :
    (0 : ℚ) ≤ 2000 ∧
    ((compressImage singleImageClientMaxDimension ⟨"image/png", 2000, 1000⟩ true).type =
        "image/jpeg" ∧
      (compressImage singleImageClientMaxDimension ⟨"image/png", 2000, 1000⟩ true).width ≤
        singleImageClientMaxDimension ∧
      (compressImage singleImageClientMaxDimension ⟨"image/png", 2000, 1000⟩ true).height ≤
        singleImageClientMaxDimension) ∧
    compressImage multiPageClientMaxDimension ⟨"image/png", 2000, 1000⟩ false =
      ⟨"image/png", 2000, 1000⟩ :=
  ⟨by norm_num,
   (compressImage_bounded singleImageClientMaxDimension ⟨"image/png", 2000, 1000⟩ true
      (Or.inl rfl) (by norm_num) (by norm_num)).1 rfl,
   (compressImage_bounded multiPageClientMaxDimension ⟨"image/png", 2000, 1000⟩ false
      (Or.inr rfl) (by norm_num) (by norm_num)).2 rfl⟩

end OcrVision
